import Mathlib

/-!
Shallow embedding of `mcdreforged/plugin/regular_plugin.py`: the
`RegularPlugin` load/reload/unload lifecycle manager.  The Code Registry is
`sys.modules`, modelled by its key list (Python dict keys are unique and
insertion-ordered); the file system, the content digest, the event catalog
and the code-loading primitive are external collaborators and appear as
explicit parameters or components of the system state.
-/

set_option autoImplicit false

namespace MCDR

/-- Python attribute values exposed by a loaded module, modelled as opaque
natural-number tokens; which tokens are callable is supplied by the
environment. -/
abbrev PyVal := Nat

/-- A loaded code unit (the object `misc_util.load_source` returns):
`getattr(module, name, None)` becomes `module.attrs name`. -/
structure Module where
  attrs : String → Option PyVal

/-- Modelled from the spec: the Lifecycle State Machine's closed state set
(`mcdreforged.plugin.plugin.PluginState`, not under src/):
`Uninitialized → Loaded → Ready`, and any of those `→ Unloading → Unloaded`
(terminal). -/
inductive PluginState where
  | UNINITIALIZED
  | LOADED
  | READY
  | UNLOADING
  | UNLOADED
deriving DecidableEq

/-- String form of a state, used in formatted diagnostics. -/
def PluginState.name : PluginState → String
  | .UNINITIALIZED => "PluginState.UNINITIALIZED"
  | .LOADED => "PluginState.LOADED"
  | .READY => "PluginState.READY"
  | .UNLOADING => "PluginState.UNLOADING"
  | .UNLOADED => "PluginState.UNLOADED"

/-- Modelled from the spec: the Metadata Parser
(`mcdreforged.plugin.metadata.MetaData`, not under src/): given the raw
optional `PLUGIN_METADATA` attribute it builds a structured record, a
default one when the attribute is absent. -/
structure MetaData where
  raw : Option PyVal
deriving DecidableEq

/-- Modelled from the spec: `MetaData(self, raw_attribute)` construction. -/
def MetaDataOf (raw : Option PyVal) : MetaData := ⟨raw⟩

/-- Modelled from the spec: an entry of the static Event Catalog
(`mcdreforged.plugin.plugin_event.MCDRPluginEvents`, not under src/): a known
event with an optional conventional default-handler name (the code checks
`isinstance(event.default_method_name, str)`). -/
structure Event where
  event_id : String
  default_method_name : Option String
deriving DecidableEq

/-- Modelled from the spec: `DEFAULT_LISTENER_PRIORITY` from
`mcdreforged.plugin.plugin_registry` (not under src/), the fixed default
priority given to auto-bound listeners. -/
def DEFAULT_LISTENER_PRIORITY : Nat := 1000

/-- A listener registered in the plugin's listener collection:
`add_event_listener(event, EventListener(self, func, priority))`. -/
structure RegisteredListener where
  event_id : String
  owner : String
  callback : PyVal
  priority : Nat
deriving DecidableEq

/-- Diagnostic severities used by this component. -/
inductive Level where
  | debug
  | critical
deriving DecidableEq

/-- One emitted diagnostic record. -/
structure LogRecord where
  level : Level
  msg : String
deriving DecidableEq

/-- Errors surfaced by lifecycle operations: `IllegalCallError` from the
state-machine guard, or a failure raised by the code-loading primitive,
propagated with its payload preserved. -/
inductive Err where
  | illegalCall (msg : String)
  | loadError (msg : String)
deriving DecidableEq

/-- The shared process-wide state: the Code Registry's identifier table
(the keys of `sys.modules`, unique and in insertion order), the file
system (path to file bytes), and the diagnostics log. -/
structure Sys where
  modules : List String
  fs : String → Option (List Nat)
  log : List LogRecord

/-- External collaborators fixed for a run: the content digest
(`hashlib.sha256(...).hexdigest()`), the static Event Catalog
(`MCDRPluginEvents.get_event_list()`), and Python's `callable` test. -/
structure Env where
  digest : List Nat → String
  events : List Event
  isCallable : PyVal → Bool

/-- The code-loading primitive `misc_util.load_source(file_path)` (not under
src/): given the registry keys before the call it yields the registry keys
after the call (the primitive may have inserted entries even when it fails)
and either the loaded module or the raised error. -/
abbrev LoadPrim := String → List String → List String × Except String Module

/-- The fields of `RegularPlugin` (with the listener collection the base
class owns through `plugin_registry`, and the state the Lifecycle State
Machine owns on its behalf). -/
structure Plugin where
  file_path : String
  file_name : String
  file_hash : Option String
  module_instance : Option Module
  old_module_instance : Option Module
  newly_loaded_module : List String
  metadata : Option MetaData
  listeners : List RegisteredListener
  state : PluginState

/-- `RegularPlugin.__repr__`. -/
def plugin_repr (p : Plugin) : String :=
  "RegularPlugin[file=" ++ p.file_name ++ ",path=" ++ p.file_path ++
    ",state=" ++ p.state.name ++ "]"

/-- Modelled from the spec: `AbstractPlugin.assert_state(allowed)` (not under
src/): fails with `IllegalCallError` when the current state is outside the
permitted set, before any side effect. -/
def assert_state (p : Plugin) (allowed : List PluginState) : Except Err Unit :=
  if p.state ∈ allowed then Except.ok ()
  else Except.error (Err.illegalCall
    ("Illegal call while the state of " ++ plugin_repr p ++ " is " ++ p.state.name))

/-- `RegularPlugin.file_exists`. -/
def file_exists (s : Sys) (p : Plugin) : Bool :=
  (s.fs p.file_path).isSome

/-- `RegularPlugin.get_file_hash`: the sha256 hex digest of the full file
contents when the file exists, `None` otherwise. -/
def get_file_hash (env : Env) (s : Sys) (p : Plugin) : Option String :=
  match s.fs p.file_path with
  | some bytes => some (env.digest bytes)
  | none => none

/-- `RegularPlugin.file_changed`: `self.get_file_hash() != self.file_hash`. -/
def file_changed (env : Env) (s : Sys) (p : Plugin) : Bool :=
  decide (get_file_hash env s p ≠ p.file_hash)

/-- `RegularPlugin.get_metadata`: raises `IllegalCallError` while the
metadata is still unset. -/
def get_metadata (p : Plugin) : Except Err MetaData :=
  match p.metadata with
  | none => Except.error (Err.illegalCall
      ("Meta data of plugin " ++ plugin_repr p ++ " is not loaded. Plugin state = "
        ++ p.state.name))
  | some m => Except.ok m

/-- The body of the loop in `RegularPlugin.__register_default_listeners`
for one event: the listener it would add, if any. -/
def default_listener_of (env : Env) (p : Plugin) (ev : Event) : Option RegisteredListener :=
  match ev.default_method_name with
  | some name =>
    match p.module_instance.bind (fun m => m.attrs name) with
    | some f =>
      if env.isCallable f then
        some ⟨ev.event_id, p.file_name, f, DEFAULT_LISTENER_PRIORITY⟩
      else none
    | none => none
  | none => none

/-- `RegularPlugin.__register_default_listeners`: for each catalog event with
a conventional default handler name, bind the loaded unit's callable of that
name at the default priority (additive on the listener collection). -/
def register_default_listeners (env : Env) (p : Plugin) : Plugin :=
  { p with listeners := p.listeners ++ env.events.filterMap (default_listener_of env p) }

/-- Append a debug diagnostic. -/
def log_debug (s : Sys) (msg : String) : Sys :=
  { s with log := s.log ++ [⟨Level.debug, msg⟩] }

/-- Render an optional hash the way the formatted messages do. -/
def hash_str : Option String → String
  | some h => h
  | none => "None"

/-- `RegularPlugin.__load_instance`: capture the file hash, snapshot the
registry, save the displaced unit, invoke the loading primitive, and in a
guaranteed-cleanup finalizer record the registry diff whether the primitive
succeeded or raised; on success install the module, build the metadata from
its optional `PLUGIN_METADATA` attribute and clear the plugin's listener
collection (`self.plugin_registry.clear()`).  The `GLOBAL_LOAD_LOCK`
critical section is a no-op in this sequential model. -/
def load_instance (env : Env) (prim : LoadPrim) (p : Plugin) (s : Sys) :
    Plugin × Sys × Option Err :=
  let p1 := { p with file_hash := get_file_hash env s p }
  let previous_modules := s.modules
  let p2 := { p1 with old_module_instance := p1.module_instance }
  match prim p.file_path s.modules with
  | (mods2, Except.ok m) =>
    let p3 := { p2 with
      module_instance := some m,
      newly_loaded_module := mods2.filter (fun x => decide (x ∉ previous_modules)) }
    let p4 := { p3 with
      metadata := some (MetaDataOf (m.attrs "PLUGIN_METADATA")),
      listeners := [] }
    (p4, { s with modules := mods2 }, none)
  | (mods2, Except.error e) =>
    let p3 := { p2 with
      newly_loaded_module := mods2.filter (fun x => decide (x ∉ previous_modules)) }
    (p3, { s with modules := mods2 }, some (Err.loadError e))

/-- `RegularPlugin.load`: permitted only from `UNINITIALIZED`; on success
logs a debug record and transitions to `LOADED`. -/
def load (env : Env) (prim : LoadPrim) (p : Plugin) (s : Sys) :
    Plugin × Sys × Option Err :=
  match assert_state p [PluginState.UNINITIALIZED] with
  | Except.error e => (p, s, some e)
  | Except.ok _ =>
    match load_instance env prim p s with
    | (p2, s2, some e) => (p2, s2, some e)
    | (p2, s2, none) =>
      let s3 := log_debug s2 ("Plugin " ++ plugin_repr p2 ++ " loaded from "
        ++ p2.file_path ++ ", file sha256 = " ++ hash_str p2.file_hash)
      ({ p2 with state := PluginState.LOADED }, s3, none)

/-- `RegularPlugin.ready`: permitted from `LOADED` or `READY`; registers the
default listeners and transitions to `READY`. -/
def ready (env : Env) (p : Plugin) (s : Sys) : Plugin × Sys × Option Err :=
  match assert_state p [PluginState.LOADED, PluginState.READY] with
  | Except.error e => (p, s, some e)
  | Except.ok _ =>
    let p2 := register_default_listeners env p
    ({ p2 with state := PluginState.READY }, s, none)

/-- `RegularPlugin.reload`: permitted from `LOADED` or `READY`; repeats the
load step and logs a debug record, without any state transition. -/
def reload (env : Env) (prim : LoadPrim) (p : Plugin) (s : Sys) :
    Plugin × Sys × Option Err :=
  match assert_state p [PluginState.LOADED, PluginState.READY] with
  | Except.error e => (p, s, some e)
  | Except.ok _ =>
    match load_instance env prim p s with
    | (p2, s2, some e) => (p2, s2, some e)
    | (p2, s2, none) =>
      let s3 := log_debug s2 ("RegularPlugin " ++ plugin_repr p2
        ++ " reloaded, file sha256 = " ++ hash_str p2.file_hash)
      (p2, s3, none)

/-- The eviction loop of `RegularPlugin.unload`: pop each recorded
identifier from the registry in order; a missing one (`KeyError`) yields a
critical diagnostic, a removed one a debug diagnostic, and the loop never
aborts.  Popping a dict key removes its unique occurrence, rendered here as
a filter over the key list. -/
def evict (pr : String) : List String → List String → List LogRecord →
    List String × List LogRecord
  | [], mods, log => (mods, log)
  | m :: rest, mods, log =>
    if m ∈ mods then
      evict pr rest (mods.filter (fun x => decide (x ≠ m)))
        (log ++ [⟨Level.debug, "Removed module " ++ m ++ " when unloading plugin " ++ pr⟩])
    else
      evict pr rest mods
        (log ++ [⟨Level.critical, "Module " ++ m ++ " not found when unloading plugin " ++ pr⟩])

/-- `RegularPlugin.unload`: permitted from `UNINITIALIZED`, `LOADED` or
`READY`; evicts every recorded identifier, clears the record and
transitions to `UNLOADING`. -/
def unload (p : Plugin) (s : Sys) : Plugin × Sys × Option Err :=
  match assert_state p [PluginState.UNINITIALIZED, PluginState.LOADED, PluginState.READY] with
  | Except.error e => (p, s, some e)
  | Except.ok _ =>
    let r := evict (plugin_repr p) p.newly_loaded_module s.modules s.log
    ({ p with newly_loaded_module := [], state := PluginState.UNLOADING },
     { s with modules := r.1, log := r.2 }, none)

/-- `RegularPlugin.remove`: permitted only from `UNLOADING`; transitions to
the terminal `UNLOADED`. -/
def remove (p : Plugin) (s : Sys) : Plugin × Sys × Option Err :=
  match assert_state p [PluginState.UNLOADING] with
  | Except.error e => (p, s, some e)
  | Except.ok _ => ({ p with state := PluginState.UNLOADED }, s, none)

/-! Concrete fixtures used by witnesses and counterexamples. -/

/-- A sample loaded module exposing a callable `on_load` attribute. -/
def mod0 : Module := ⟨fun name => if name = "on_load" then some 7 else none⟩

/-- A sample environment: a length-based stand-in digest, a two-event
catalog (one with a default handler name, one without), everything
callable. -/
def env0 : Env :=
  { digest := fun bytes => "sha" ++ toString bytes.length,
    events := [⟨"mcdr.on_load", some "on_load"⟩, ⟨"mcdr.on_unload", none⟩],
    isCallable := fun _ => true }

/-- A loading primitive that succeeds, inserting one dependent entry. -/
def primOk : LoadPrim := fun _ mods => (mods ++ ["dep"], Except.ok mod0)

/-- A loading primitive that raises after inserting one dependent entry. -/
def primFail : LoadPrim := fun _ mods => (mods ++ ["dep"], Except.error "boom")

/-- A sample plugin, never loaded, with one recorded identifier. -/
def p0 : Plugin :=
  { file_path := "plugins/a.py", file_name := "a.py", file_hash := none,
    module_instance := none, old_module_instance := none,
    newly_loaded_module := ["a"], metadata := none, listeners := [],
    state := PluginState.UNINITIALIZED }

/-- A sample system state: one registry entry, one existing file. -/
def s0 : Sys :=
  { modules := ["a"],
    fs := fun path => if path = "plugins/a.py" then some [1, 2, 3] else none,
    log := [] }

/-! Theorems. -/

/-- C1: after every `performLoad` (`__load_instance`, shared by `load` and
`reload`), whether the loading primitive succeeds or raises,
`newly_loaded_module` holds exactly the registry identifiers present after
the load minus those in the pre-load snapshot, replacing any previously
stored value. -/
theorem load_instance_diff_exact (env : Env) (prim : LoadPrim) (p : Plugin) (s : Sys)
    (m : String) :
    m ∈ (load_instance env prim p s).1.newly_loaded_module ↔
      (m ∈ (load_instance env prim p s).2.1.modules ∧ m ∉ s.modules) := by
  unfold load_instance
  rcases h : prim p.file_path s.modules with ⟨mods2, r⟩
  cases r <;> simp [List.mem_filter]

/-- Whatever `evict` leaves in the registry was already there. -/
theorem evict_mem_mods {pr x : String} :
    ∀ (l mods : List String) (log : List LogRecord),
      x ∈ (evict pr l mods log).1 → x ∈ mods := by
  intro l
  induction l with
  | nil => intro mods log h; simpa [evict] using h
  | cons m rest ih =>
    intro mods log h
    rw [evict] at h
    by_cases hm : m ∈ mods
    · rw [if_pos hm] at h
      exact (List.mem_filter.mp (ih _ _ h)).1
    · rw [if_neg hm] at h
      exact ih _ _ h

/-- `evict` removes every identifier of its worklist from the registry. -/
theorem evict_not_mem {pr m : String} :
    ∀ (l mods : List String) (log : List LogRecord),
      m ∈ l → m ∉ (evict pr l mods log).1 := by
  intro l
  induction l with
  | nil => intro mods log h; cases h
  | cons a rest ih =>
    intro mods log hmem hcontra
    rw [evict] at hcontra
    by_cases ha : a ∈ mods
    · rw [if_pos ha] at hcontra
      rcases List.mem_cons.mp hmem with h1 | h1
      · subst h1
        have h2 := (List.mem_filter.mp (evict_mem_mods _ _ _ hcontra)).2
        simp at h2
      · exact ih _ _ h1 hcontra
    · rw [if_neg ha] at hcontra
      rcases List.mem_cons.mp hmem with h1 | h1
      · subst h1
        exact ha (evict_mem_mods _ _ _ hcontra)
      · exact ih _ _ h1 hcontra

/-- C2: for a plugin in `UNINITIALIZED`, `LOADED` or `READY`, `unload`
returns without error, afterwards no identifier recorded in
`newly_loaded_module` before the call remains in the Code Registry, and
`newly_loaded_module` is empty. -/
theorem unload_evicts_all (p : Plugin) (s : Sys)
    (h : p.state = PluginState.UNINITIALIZED ∨ p.state = PluginState.LOADED ∨
      p.state = PluginState.READY) :
    (unload p s).2.2 = none ∧
    (unload p s).1.newly_loaded_module = [] ∧
    ∀ m ∈ p.newly_loaded_module, m ∉ (unload p s).2.1.modules := by
  have hmem : p.state ∈ [PluginState.UNINITIALIZED, PluginState.LOADED, PluginState.READY] := by
    rcases h with h | h | h <;> simp [h]
  unfold unload assert_state
  rw [if_pos hmem]
  refine ⟨rfl, rfl, ?_⟩
  intro m hm
  exact evict_not_mem _ _ _ hm

/-- C2 witness: concrete plugin and registry. -/
theorem unload_evicts_all_witness :
    (unload p0 s0).2.2 = none ∧
    (unload p0 s0).1.newly_loaded_module = [] ∧
    ∀ m ∈ p0.newly_loaded_module, m ∉ (unload p0 s0).2.1.modules :=
  unload_evicts_all p0 s0 (Or.inl rfl)

/-- The outcome of `__load_instance` when the loading primitive raises. -/
theorem load_instance_failure_eq (env : Env) (prim : LoadPrim) (p : Plugin) (s : Sys)
    (mods2 : List String) (e : String)
    (hprim : prim p.file_path s.modules = (mods2, Except.error e)) :
    load_instance env prim p s =
      ({ p with file_hash := get_file_hash env s p,
                old_module_instance := p.module_instance,
                newly_loaded_module := mods2.filter (fun x => decide (x ∉ s.modules)) },
       { s with modules := mods2 }, some (Err.loadError e)) := by
  unfold load_instance
  rw [hprim]

/-- The outcome of `__load_instance` when the loading primitive succeeds. -/
theorem load_instance_ok_eq (env : Env) (prim : LoadPrim) (p : Plugin) (s : Sys)
    (mods2 : List String) (m : Module)
    (hprim : prim p.file_path s.modules = (mods2, Except.ok m)) :
    load_instance env prim p s =
      ({ p with file_hash := get_file_hash env s p,
                old_module_instance := p.module_instance,
                module_instance := some m,
                newly_loaded_module := mods2.filter (fun x => decide (x ∉ s.modules)),
                metadata := some (MetaDataOf (m.attrs "PLUGIN_METADATA")),
                listeners := [] },
       { s with modules := mods2 }, none) := by
  unfold load_instance
  rw [hprim]

/-- C3 counterexample: a concrete uninitialized plugin whose loading
primitive raises.  The failure is propagated, yet `file_hash` does not keep
its pre-call value `none`: it has been overwritten with the digest of the
current file contents, because the hash is captured before the load
attempt. -/
theorem load_failure_hash_counterexample :
    (load env0 primFail p0 s0).2.2 = some (Err.loadError "boom") ∧
    p0.file_hash = none ∧
    (load env0 primFail p0 s0).1.file_hash = some "sha3" ∧
    (load env0 primFail p0 s0).1.file_hash ≠ p0.file_hash := by
  refine ⟨by decide, rfl, by decide, by decide⟩

/-- C3 amended: when the loading primitive raises during `load` or `reload`,
the failure is propagated with its payload unmodified, the registry diff is
still recorded via the guaranteed-cleanup finalizer, and `module_instance`
and `metadata` keep their pre-call values; `file_hash`, however, is
overwritten with the digest of the file contents captured just before the
load attempt. -/
theorem load_reload_failure_amended (env : Env) (prim : LoadPrim) (p : Plugin) (s : Sys)
    (mods2 : List String) (e : String)
    (hprim : prim p.file_path s.modules = (mods2, Except.error e)) :
    (p.state = PluginState.UNINITIALIZED →
      (load env prim p s).2.2 = some (Err.loadError e) ∧
      (load env prim p s).1.module_instance = p.module_instance ∧
      (load env prim p s).1.metadata = p.metadata ∧
      (load env prim p s).1.file_hash = get_file_hash env s p ∧
      ∀ m, m ∈ (load env prim p s).1.newly_loaded_module ↔
        (m ∈ (load env prim p s).2.1.modules ∧ m ∉ s.modules)) ∧
    ((p.state = PluginState.LOADED ∨ p.state = PluginState.READY) →
      (reload env prim p s).2.2 = some (Err.loadError e) ∧
      (reload env prim p s).1.module_instance = p.module_instance ∧
      (reload env prim p s).1.metadata = p.metadata ∧
      (reload env prim p s).1.file_hash = get_file_hash env s p ∧
      ∀ m, m ∈ (reload env prim p s).1.newly_loaded_module ↔
        (m ∈ (reload env prim p s).2.1.modules ∧ m ∉ s.modules)) := by
  constructor
  · intro hstate
    have hmem : p.state ∈ [PluginState.UNINITIALIZED] := by simp [hstate]
    unfold load assert_state
    rw [if_pos hmem, load_instance_failure_eq env prim p s mods2 e hprim]
    refine ⟨rfl, rfl, rfl, rfl, ?_⟩
    intro m
    simp [List.mem_filter]
  · intro hstate
    have hmem : p.state ∈ [PluginState.LOADED, PluginState.READY] := by
      rcases hstate with h | h <;> simp [h]
    unfold reload assert_state
    rw [if_pos hmem, load_instance_failure_eq env prim p s mods2 e hprim]
    refine ⟨rfl, rfl, rfl, rfl, ?_⟩
    intro m
    simp [List.mem_filter]

/-- C3 amended witness: concrete uninitialized plugin, failing primitive. -/
theorem load_reload_failure_amended_witness :
    (p0.state = PluginState.UNINITIALIZED →
      (load env0 primFail p0 s0).2.2 = some (Err.loadError "boom") ∧
      (load env0 primFail p0 s0).1.module_instance = p0.module_instance ∧
      (load env0 primFail p0 s0).1.metadata = p0.metadata ∧
      (load env0 primFail p0 s0).1.file_hash = get_file_hash env0 s0 p0 ∧
      ∀ m, m ∈ (load env0 primFail p0 s0).1.newly_loaded_module ↔
        (m ∈ (load env0 primFail p0 s0).2.1.modules ∧ m ∉ s0.modules)) ∧
    ((p0.state = PluginState.LOADED ∨ p0.state = PluginState.READY) →
      (reload env0 primFail p0 s0).2.2 = some (Err.loadError "boom") ∧
      (reload env0 primFail p0 s0).1.module_instance = p0.module_instance ∧
      (reload env0 primFail p0 s0).1.metadata = p0.metadata ∧
      (reload env0 primFail p0 s0).1.file_hash = get_file_hash env0 s0 p0 ∧
      ∀ m, m ∈ (reload env0 primFail p0 s0).1.newly_loaded_module ↔
        (m ∈ (reload env0 primFail p0 s0).2.1.modules ∧ m ∉ s0.modules)) :=
  load_reload_failure_amended env0 primFail p0 s0 ["a", "dep"] "boom" rfl

/-- C4: in the scenario `newly_loaded_module = [A, B, C]` with `B` already
removed from the registry by another actor, `unload` still removes `A` and
`C`, appends exactly one critical diagnostic (for `B`, between the two debug
records for `A` and `C`), never aborts, and completes the transition to
`UNLOADING`. -/
theorem unload_partial_tolerance (p : Plugin) (s : Sys) (A B C : String)
    (hstate : p.state = PluginState.UNINITIALIZED ∨ p.state = PluginState.LOADED ∨
      p.state = PluginState.READY)
    (hnew : p.newly_loaded_module = [A, B, C])
    (hAB : A ≠ B) (hAC : A ≠ C) (hBC : B ≠ C)
    (hA : A ∈ s.modules) (hB : B ∉ s.modules) (hC : C ∈ s.modules) :
    (unload p s).2.2 = none ∧
    A ∉ (unload p s).2.1.modules ∧
    B ∉ (unload p s).2.1.modules ∧
    C ∉ (unload p s).2.1.modules ∧
    (unload p s).2.1.log = s.log ++
      [⟨Level.debug, "Removed module " ++ A ++ " when unloading plugin " ++ plugin_repr p⟩,
       ⟨Level.critical, "Module " ++ B ++ " not found when unloading plugin " ++ plugin_repr p⟩,
       ⟨Level.debug, "Removed module " ++ C ++ " when unloading plugin " ++ plugin_repr p⟩] ∧
    (unload p s).1.state = PluginState.UNLOADING := by
  have hmem : p.state ∈ [PluginState.UNINITIALIZED, PluginState.LOADED, PluginState.READY] := by
    rcases hstate with h | h | h <;> simp [h]
  have hB1 : B ∉ s.modules.filter (fun x => decide (x ≠ A)) := fun hx => hB (List.mem_filter.mp hx).1
  have hC1 : C ∈ s.modules.filter (fun x => decide (x ≠ A)) :=
    List.mem_filter.mpr ⟨hC, by simp [Ne.symm hAC]⟩
  have hev : evict (plugin_repr p) [A, B, C] s.modules s.log =
      (((s.modules.filter (fun x => decide (x ≠ A))).filter (fun x => decide (x ≠ C))),
       s.log ++
        [⟨Level.debug, "Removed module " ++ A ++ " when unloading plugin " ++ plugin_repr p⟩] ++
        [⟨Level.critical, "Module " ++ B ++ " not found when unloading plugin " ++ plugin_repr p⟩] ++
        [⟨Level.debug, "Removed module " ++ C ++ " when unloading plugin " ++ plugin_repr p⟩]) := by
    rw [evict, if_pos hA, evict, if_neg hB1, evict, if_pos hC1, evict]
  unfold unload assert_state
  rw [if_pos hmem, hnew, hev]
  refine ⟨rfl, ?_, ?_, ?_, ?_, rfl⟩
  · intro hx
    have := (List.mem_filter.mp (List.mem_filter.mp hx).1).2
    simp at this
  · intro hx
    exact hB ((List.mem_filter.mp (List.mem_filter.mp hx).1).1)
  · intro hx
    have := (List.mem_filter.mp hx).2
    simp at this
  · simp

/-- C4 witness: a plugin that recorded `a`, `b`, `c`, with `b` already gone
from the registry. -/
theorem unload_partial_tolerance_witness :
    (unload { p0 with newly_loaded_module := ["a", "b", "c"] }
      { s0 with modules := ["a", "c"] }).2.2 = none ∧
    "a" ∉ (unload { p0 with newly_loaded_module := ["a", "b", "c"] }
      { s0 with modules := ["a", "c"] }).2.1.modules ∧
    "b" ∉ (unload { p0 with newly_loaded_module := ["a", "b", "c"] }
      { s0 with modules := ["a", "c"] }).2.1.modules ∧
    "c" ∉ (unload { p0 with newly_loaded_module := ["a", "b", "c"] }
      { s0 with modules := ["a", "c"] }).2.1.modules ∧
    (unload { p0 with newly_loaded_module := ["a", "b", "c"] }
      { s0 with modules := ["a", "c"] }).2.1.log = s0.log ++
      [⟨Level.debug, "Removed module " ++ "a" ++ " when unloading plugin "
          ++ plugin_repr { p0 with newly_loaded_module := ["a", "b", "c"] }⟩,
       ⟨Level.critical, "Module " ++ "b" ++ " not found when unloading plugin "
          ++ plugin_repr { p0 with newly_loaded_module := ["a", "b", "c"] }⟩,
       ⟨Level.debug, "Removed module " ++ "c" ++ " when unloading plugin "
          ++ plugin_repr { p0 with newly_loaded_module := ["a", "b", "c"] }⟩] ∧
    (unload { p0 with newly_loaded_module := ["a", "b", "c"] }
      { s0 with modules := ["a", "c"] }).1.state = PluginState.UNLOADING :=
  unload_partial_tolerance { p0 with newly_loaded_module := ["a", "b", "c"] }
    { s0 with modules := ["a", "c"] } "a" "b" "c" (Or.inl rfl) rfl
    (by decide) (by decide) (by decide) (by decide) (by decide) (by decide)

/-- C5: calling `load` on a plugin in state `READY` fails with an
`IllegalCall` error and performs no side effect: the plugin and the whole
system state (registry, file system, log) are returned exactly as they
were. -/
theorem load_ready_illegal (env : Env) (prim : LoadPrim) (p : Plugin) (s : Sys)
    (h : p.state = PluginState.READY) :
    (load env prim p s).1 = p ∧ (load env prim p s).2.1 = s ∧
    ∃ msg, (load env prim p s).2.2 = some (Err.illegalCall msg) := by
  have hnot : p.state ∉ [PluginState.UNINITIALIZED] := by simp [h]
  unfold load assert_state
  rw [if_neg hnot]
  exact ⟨rfl, rfl, _, rfl⟩

/-- A sample plugin that has completed `load` and `ready`. -/
def pReady : Plugin :=
  { p0 with state := PluginState.READY, module_instance := some mod0,
            metadata := some (MetaDataOf none), file_hash := some "sha3",
            newly_loaded_module := ["dep"] }

/-- C5 witness: a concrete plugin in `READY`. -/
theorem load_ready_illegal_witness :
    (load env0 primOk pReady s0).1 = pReady ∧ (load env0 primOk pReady s0).2.1 = s0 ∧
    ∃ msg, (load env0 primOk pReady s0).2.2 = some (Err.illegalCall msg) :=
  load_ready_illegal env0 primOk pReady s0 rfl

/-- C6: after a successful `load` or `reload`, `file_hash` equals the digest
of the source file's full contents as they were at the moment of that
load. -/
theorem load_reload_hash_correct (env : Env) (prim : LoadPrim) (p : Plugin) (s : Sys)
    (bytes : List Nat) (hfile : s.fs p.file_path = some bytes) :
    ((load env prim p s).2.2 = none →
      (load env prim p s).1.file_hash = some (env.digest bytes)) ∧
    ((reload env prim p s).2.2 = none →
      (reload env prim p s).1.file_hash = some (env.digest bytes)) := by
  have hhash : get_file_hash env s p = some (env.digest bytes) := by
    unfold get_file_hash
    rw [hfile]
  constructor
  · intro hsucc
    unfold load at hsucc ⊢
    rcases hassert : assert_state p [PluginState.UNINITIALIZED] with e | u
    · rw [hassert] at hsucc
      simp at hsucc
    · rw [hassert] at hsucc
      rcases hprim : prim p.file_path s.modules with ⟨mods2, r⟩
      cases r with
      | ok m =>
        rw [load_instance_ok_eq env prim p s mods2 m hprim]
        exact hhash
      | error e =>
        rw [load_instance_failure_eq env prim p s mods2 e hprim] at hsucc
        simp at hsucc
  · intro hsucc
    unfold reload at hsucc ⊢
    rcases hassert : assert_state p [PluginState.LOADED, PluginState.READY] with e | u
    · rw [hassert] at hsucc
      simp at hsucc
    · rw [hassert] at hsucc
      rcases hprim : prim p.file_path s.modules with ⟨mods2, r⟩
      cases r with
      | ok m =>
        rw [load_instance_ok_eq env prim p s mods2 m hprim]
        exact hhash
      | error e =>
        rw [load_instance_failure_eq env prim p s mods2 e hprim] at hsucc
        simp at hsucc

/-- C6 witness: a concrete successful load of an existing file. -/
theorem load_reload_hash_correct_witness :
    ((load env0 primOk p0 s0).2.2 = none →
      (load env0 primOk p0 s0).1.file_hash = some (env0.digest [1, 2, 3])) ∧
    ((reload env0 primOk p0 s0).2.2 = none →
      (reload env0 primOk p0 s0).1.file_hash = some (env0.digest [1, 2, 3])) :=
  load_reload_hash_correct env0 primOk p0 s0 [1, 2, 3] rfl

/-- `__load_instance` never touches the lifecycle state field. -/
theorem load_instance_state_eq (env : Env) (prim : LoadPrim) (p : Plugin) (s : Sys) :
    (load_instance env prim p s).1.state = p.state := by
  unfold load_instance
  rcases h : prim p.file_path s.modules with ⟨mods2, r⟩
  cases r <;> rfl

/-- C7: for a plugin in `LOADED` or `READY`, a successful `reload` leaves
the lifecycle state exactly as it was before the call. -/
theorem reload_preserves_state (env : Env) (prim : LoadPrim) (p : Plugin) (s : Sys)
    (h : p.state = PluginState.LOADED ∨ p.state = PluginState.READY)
    (hsucc : (reload env prim p s).2.2 = none) :
    (reload env prim p s).1.state = p.state := by
  have hmem : p.state ∈ [PluginState.LOADED, PluginState.READY] := by
    rcases h with h | h <;> simp [h]
  unfold reload
  unfold assert_state
  rw [if_pos hmem]
  rcases hinst : load_instance env prim p s with ⟨p2, s2, err⟩
  have hstate : p2.state = p.state := by
    have := load_instance_state_eq env prim p s
    rw [hinst] at this
    exact this
  cases err <;> exact hstate

/-- A sample plugin in `LOADED`, as left by a successful first load. -/
def pLoaded : Plugin :=
  { p0 with state := PluginState.LOADED, module_instance := some mod0,
            metadata := some (MetaDataOf none), file_hash := some "sha3",
            newly_loaded_module := ["dep"] }

/-- C7 witness: a concrete successful reload from `LOADED`. -/
theorem reload_preserves_state_witness :
    (reload env0 primOk pLoaded s0).1.state = pLoaded.state :=
  reload_preserves_state env0 primOk pLoaded s0 (Or.inl rfl) (by decide)

/-- `get_file_hash` depends only on the bytes stored at the plugin's path. -/
theorem get_file_hash_congr (env : Env) (p : Plugin) (s s2 : Sys)
    (h : s2.fs p.file_path = s.fs p.file_path) :
    get_file_hash env s2 p = get_file_hash env s p := by
  unfold get_file_hash
  rw [h]

/-- C8: `file_changed` is a pure check of the current digest against the
stored hash: two calls with the file bytes and the stored hash untouched
return the same boolean, and once the file's bytes are modified so that the
recomputed digest differs from what the stored hash recorded, it returns
true. -/
theorem file_changed_props (env : Env) (p : Plugin) (s s2 : Sys)
    (hsame : s2.fs p.file_path = s.fs p.file_path) :
    file_changed env s2 p = file_changed env s p ∧
    ∀ s3 : Sys, p.file_hash = get_file_hash env s p →
      get_file_hash env s3 p ≠ get_file_hash env s p →
      file_changed env s3 p = true := by
  constructor
  · unfold file_changed
    rw [get_file_hash_congr env p s s2 hsame]
  · intro s3 hstored hdiff
    unfold file_changed
    rw [decide_eq_true_iff]
    rw [hstored]
    exact hdiff

/-- A system state differing from `s0` everywhere except in the bytes of
the plugin's own file: more registry entries, an unrelated log record, and
different contents at other paths. -/
def s0b : Sys :=
  { modules := ["a", "b"],
    fs := fun path => if path = "plugins/a.py" then some [1, 2, 3] else some [7],
    log := [⟨Level.debug, "unrelated"⟩] }

/-- A system state in which the plugin's file bytes have been modified, so
its digest differs from the one `pLoaded` stored. -/
def sMod : Sys :=
  { modules := ["a"],
    fs := fun path => if path = "plugins/a.py" then some [1, 2, 3, 4] else none,
    log := [] }

/-- C8 witness: at `pLoaded` the stored hash matches the current digest, so
both premises are live: the identity check agrees across the two distinct
system states `s0b` and `s0` that hold the same file bytes (both calls
return `false`), and after the modification in `sMod` the recomputed digest
differs, so `file_changed` returns `true`. -/
theorem file_changed_props_witness :
    file_changed env0 s0b pLoaded = file_changed env0 s0 pLoaded ∧
    (∀ s3 : Sys, pLoaded.file_hash = get_file_hash env0 s0 pLoaded →
      get_file_hash env0 s3 pLoaded ≠ get_file_hash env0 s0 pLoaded →
      file_changed env0 s3 pLoaded = true) ∧
    file_changed env0 s0 pLoaded = false ∧
    file_changed env0 sMod pLoaded = true := by
  have h := file_changed_props env0 pLoaded s0 s0b (by decide)
  exact ⟨h.1, h.2, by decide, h.2 sMod (by decide) (by decide)⟩

/-- C9: from `LOADED` or `READY`, `ready` succeeds, ends in `READY`, and
appends — never removing anything — one listener at the fixed default
priority for every catalog event whose declared default handler name the
loaded unit exposes as a callable attribute; a repeated `ready` without an
intervening reload appends the same batch again, registering duplicates. -/
theorem ready_registers_default_listeners (env : Env) (p : Plugin) (s : Sys)
    (h : p.state = PluginState.LOADED ∨ p.state = PluginState.READY) :
    (ready env p s).2.2 = none ∧
    (ready env p s).1.state = PluginState.READY ∧
    (ready env p s).1.listeners =
      p.listeners ++ env.events.filterMap (default_listener_of env p) ∧
    (∀ ev ∈ env.events, ∀ name f, ev.default_method_name = some name →
      p.module_instance.bind (fun m => m.attrs name) = some f →
      env.isCallable f = true →
      (⟨ev.event_id, p.file_name, f, DEFAULT_LISTENER_PRIORITY⟩ : RegisteredListener)
        ∈ (ready env p s).1.listeners) ∧
    (ready env (ready env p s).1 (ready env p s).2.1).1.listeners =
      p.listeners ++ env.events.filterMap (default_listener_of env p)
        ++ env.events.filterMap (default_listener_of env p) := by
  have hmem : p.state ∈ [PluginState.LOADED, PluginState.READY] := by
    rcases h with h | h <;> simp [h]
  have hfirst : ready env p s =
      ({ register_default_listeners env p with state := PluginState.READY }, s, none) := by
    unfold ready assert_state
    rw [if_pos hmem]
  refine ⟨by rw [hfirst], by rw [hfirst], by rw [hfirst]; rfl, ?_, ?_⟩
  · intro ev hev name f hname hattr hcall
    rw [hfirst]
    have hsome : default_listener_of env p ev =
        some ⟨ev.event_id, p.file_name, f, DEFAULT_LISTENER_PRIORITY⟩ := by
      simp [default_listener_of, hname, hattr, hcall]
    exact List.mem_append_right _ (List.mem_filterMap.mpr ⟨ev, hev, hsome⟩)
  · rw [hfirst]
    have hsecond :
        ready env ({ register_default_listeners env p with state := PluginState.READY }) s =
        ({ register_default_listeners env
              ({ register_default_listeners env p with state := PluginState.READY }) with
            state := PluginState.READY }, s, none) := by
      unfold ready assert_state
      rw [if_pos (by simp)]
    rw [hsecond]
    rfl

/-- C9 witness: a concrete plugin in `LOADED` whose module exposes a
callable `on_load`, under the two-event catalog of `env0`. -/
theorem ready_registers_default_listeners_witness :
    (ready env0 pLoaded s0).2.2 = none ∧
    (ready env0 pLoaded s0).1.state = PluginState.READY ∧
    (ready env0 pLoaded s0).1.listeners =
      pLoaded.listeners ++ env0.events.filterMap (default_listener_of env0 pLoaded) ∧
    (∀ ev ∈ env0.events, ∀ name f, ev.default_method_name = some name →
      pLoaded.module_instance.bind (fun m => m.attrs name) = some f →
      env0.isCallable f = true →
      (⟨ev.event_id, pLoaded.file_name, f, DEFAULT_LISTENER_PRIORITY⟩ : RegisteredListener)
        ∈ (ready env0 pLoaded s0).1.listeners) ∧
    (ready env0 (ready env0 pLoaded s0).1 (ready env0 pLoaded s0).2.1).1.listeners =
      pLoaded.listeners ++ env0.events.filterMap (default_listener_of env0 pLoaded)
        ++ env0.events.filterMap (default_listener_of env0 pLoaded) :=
  ready_registers_default_listeners env0 pLoaded s0 (Or.inl rfl)

/-- C10: `get_metadata` on a plugin whose load step never completed (its
metadata field still unset) raises `IllegalCall` instead of returning a
default record; after a successful `load` it returns the metadata built
from that load without raising. -/
theorem get_metadata_guard (env : Env) (prim : LoadPrim) (p : Plugin) (s : Sys)
    (hmeta : p.metadata = none)
    (hsucc : (load env prim p s).2.2 = none) :
    (∃ msg, get_metadata p = Except.error (Err.illegalCall msg)) ∧
    ∃ md, (load env prim p s).1.metadata = some md ∧
      get_metadata (load env prim p s).1 = Except.ok md := by
  constructor
  · refine ⟨"Meta data of plugin " ++ plugin_repr p ++ " is not loaded. Plugin state = "
      ++ p.state.name, ?_⟩
    unfold get_metadata
    rw [hmeta]
  · unfold load at hsucc ⊢
    rcases hassert : assert_state p [PluginState.UNINITIALIZED] with e | u
    · rw [hassert] at hsucc
      simp at hsucc
    · rw [hassert] at hsucc
      rcases hprim : prim p.file_path s.modules with ⟨mods2, r⟩
      cases r with
      | ok m =>
        rw [load_instance_ok_eq env prim p s mods2 m hprim]
        exact ⟨MetaDataOf (m.attrs "PLUGIN_METADATA"), rfl, rfl⟩
      | error e =>
        rw [load_instance_failure_eq env prim p s mods2 e hprim] at hsucc
        simp at hsucc

/-- C10 witness: a concrete never-loaded plugin, then a successful load. -/
theorem get_metadata_guard_witness :
    (∃ msg, get_metadata p0 = Except.error (Err.illegalCall msg)) ∧
    ∃ md, (load env0 primOk p0 s0).1.metadata = some md ∧
      get_metadata (load env0 primOk p0 s0).1 = Except.ok md :=
  get_metadata_guard env0 primOk p0 s0 rfl (by decide)

end MCDR
